import Mathlib

/-!
Verification development for the gprMax directive-ingestion layer.

The definitions below are a shallow embedding of two Python modules:
gprMax/input_cmds_multiuse.py (the function process_multicmds, which turns a
raw directive table into a list of scene-object descriptors) and
gprMax/config.py (the simulation-configuration resolver and the module-level
precision registry).  Python numeric tokens are modelled as exact rationals,
Python exceptions as an explicit error type, and Python dictionaries as
association lists.
-/

namespace GprMax

/-- Python runtime exceptions distinguished by this development.  CmdInputError
is the structured directive error raised by the source (the specification
calls it DirectiveError); the remaining constructors are builtin Python
exception kinds that the source can also raise. -/
inductive PyErr where
  | cmdInputError (msg : String)
  | keyError (key : String)
  | nameError (name : String)
  | attributeError (attr : String)
  | valueError
  | indexError
  deriving DecidableEq, Repr

/-- Python truthiness of an optional integer command-line argument, as used by
the source in conditions such as `if self.args.task:` — None and 0 are falsy,
every other integer is truthy. -/
def pyTruthy : Option Int → Bool
  | none => false
  | some v => v != 0

/-- Value of a nonempty all-digit character list, none otherwise. -/
def digitsVal (cs : List Char) : Option Nat :=
  if cs.isEmpty then none
  else
    cs.foldl
      (fun acc c =>
        match acc with
        | none => none
        | some n => if c.isDigit then some (n * 10 + (c.toNat - '0'.toNat)) else none)
      (some 0)

/-- Python's builtin int() applied to a whitespace-free token: an optional
sign followed by decimal digits; any other shape raises ValueError (modelled
as none).  Underscore separators and surrounding whitespace, which cannot
occur in tokens produced by str.split(), are not modelled. -/
def pyInt (s : String) : Option Int :=
  match s.data with
  | '-' :: cs => (digitsVal cs).map (fun n => -(n : Int))
  | '+' :: cs => (digitsVal cs).map (fun n => (n : Int))
  | cs => (digitsVal cs).map (fun n => (n : Int))

/-- Decimal mantissa of a Python float literal: digits, an optional dot, and
optional fraction digits, with at least one digit present.  The value is
returned as an exact rational. -/
def parseMantissa (cs : List Char) : Option ℚ :=
  let intPart := cs.takeWhile Char.isDigit
  let rest := cs.dropWhile Char.isDigit
  match rest with
  | [] => (digitsVal intPart).map (fun n => (n : ℚ))
  | '.' :: frac =>
      if frac.all Char.isDigit then
        if intPart.isEmpty && frac.isEmpty then none
        else
          some (((digitsVal intPart).getD 0 : ℚ) +
            ((digitsVal frac).getD 0 : ℚ) / (10 : ℚ) ^ frac.length)
      else none
  | _ => none

/-- Python's builtin float() applied to a whitespace-free token: an optional
sign, a decimal mantissa, and an optional integer exponent marked by e or E.
The special spellings inf and nan, which never denote directive parameters,
are not modelled.  Values are exact rationals. -/
def pyFloat (s : String) : Option ℚ :=
  let signed : ℚ × List Char :=
    match s.data with
    | '-' :: cs => (-1, cs)
    | '+' :: cs => (1, cs)
    | cs => (1, cs)
  let mantCs := signed.2.takeWhile (fun c => c != 'e' && c != 'E')
  let expCs := signed.2.dropWhile (fun c => c != 'e' && c != 'E')
  match parseMantissa mantCs with
  | none => none
  | some m =>
    match expCs with
    | [] => some (signed.1 * m)
    | _ :: ecs =>
      match pyInt (String.mk ecs) with
      | none => none
      | some e => some (signed.1 * m * (10 : ℚ) ^ e)

/-- Helper for pySplit: consumes characters, accumulating the current token
reversed, and splits at whitespace runs. -/
def splitWsAux : List Char → List Char → List String
  | [], acc => if acc.isEmpty then [] else [String.mk acc.reverse]
  | c :: cs, acc =>
    if c.isWhitespace then
      if acc.isEmpty then splitWsAux cs []
      else String.mk acc.reverse :: splitWsAux cs []
    else splitWsAux cs (c :: acc)

/-- Python str.split() with no separator argument: split on whitespace runs,
dropping empty pieces. -/
def pySplit (s : String) : List String := splitWsAux s.data []

/-- Python str.lower() restricted to the character-wise core. -/
def pyLower (s : String) : String := String.mk (s.data.map Char.toLower)

/-- Python range(1, stop, step) for a positive step: the index list visited by
the dispersion-parameter loops of the source. -/
def pyRange1 (stop : Int) (step : Nat) : List Nat :=
  (List.range (((stop - 1).toNat + step - 1) / step)).map (fun i => 1 + step * i)

/-- Python list slicing l[i:], including the negative-start semantics in which
the start counts from the end of the list and clamps at 0. -/
def pySliceFrom (l : List String) (i : Int) : List String :=
  if i < 0 then l.drop ((l.length + i).toNat) else l.drop i.toNat

/-- Python list indexing l[i] for a nonnegative index: IndexError past the
end of the list. -/
def pyIndexN (l : List String) (i : Nat) : Except PyErr String :=
  match l[i]? with
  | some s => Except.ok s
  | none => Except.error PyErr.indexError

/-- Token access at an index already guarded in range by the preceding arity
check of the directive branch; the default is never returned there. -/
def tok (l : List String) (i : Nat) : String := l.getD i ""

/-- Python float() as an exception-raising conversion. -/
def toFloatE (s : String) : Except PyErr ℚ :=
  match pyFloat s with
  | some q => Except.ok q
  | none => Except.error PyErr.valueError

/-- Python int() as an exception-raising conversion. -/
def toIntE (s : String) : Except PyErr Int :=
  match pyInt s with
  | some n => Except.ok n
  | none => Except.error PyErr.valueError

/-- Combined fallible indexing and float conversion float(tmp[i]), used where
the source indexes beyond the arity-checked span. -/
def idxFloat (l : List String) (i : Nat) : Except PyErr ℚ := do
  let s ← pyIndexN l i
  toFloatE s

/-- Lookup in an association list with string keys, modelling Python
dictionary lookup (the caller decides what a missing key means). -/
def assocLookup {α : Type} : List (String × α) → String → Option α
  | [], _ => none
  | (k, v) :: rest, key => if k = key then some v else assocLookup rest key

/-- Trigger field of a snapshot descriptor: either an iteration count (from a
successful integer parse) or an elapsed time (from the float fallback). -/
inductive SnapTrigger where
  | iterations (n : Int)
  | time (t : ℚ)
  deriving DecidableEq, Repr

/-- Scene-object descriptors constructed by process_multicmds, one constructor
per descriptor class, fields in the order of the constructor calls in the
source.  The rxArray constructor mirrors the RxArray call on source line 167
even though that name is never imported there; geometryObjectsWrite mirrors
the GeometryObjectsWrite call on line 308, which is unreachable. -/
inductive SceneObject where
  | waveform (wave_type : String) (amp freq : ℚ) (id : String)
  | voltageSource (polarisation : String) (p1 : ℚ × ℚ × ℚ) (resistance : ℚ)
      (waveform_id : String) (start stop : Option ℚ)
  | hertzianDipole (polarisation : String) (p1 : ℚ × ℚ × ℚ)
      (waveform_id : String) (start stop : Option ℚ)
  | magneticDipole (polarisation : String) (p1 : ℚ × ℚ × ℚ)
      (waveform_id : String) (start stop : Option ℚ)
  | transmissionLine (polarisation : String) (p1 : ℚ × ℚ × ℚ) (resistance : ℚ)
      (waveform_id : String) (start stop : Option String)
  | rx (p1 : ℚ × ℚ × ℚ) (id : Option String) (outputs : List String)
  | rxArray (p1 p2 dl : ℚ × ℚ × ℚ)
  | snapshot (p1 p2 dl : ℚ × ℚ × ℚ) (trigger : SnapTrigger) (filename : String)
  | material (er se mr sm : ℚ) (id : String)
  | addDebyeDispersion (pole : Int) (er_delta tau : List ℚ) (material_ids : List String)
  | addLorentzDispersion (poles : Int) (material_ids : List String)
      (er_delta tau alpha : List ℚ)
  | addDrudeDispersion (poles : Int) (material_ids : List String) (tau alpha : List ℚ)
  | soilPeplinski (sand_fraction clay_fraction bulk_density sand_density : ℚ)
      (water_fraction_lower water_fraction_upper : ℚ) (id : String)
  | geometryView (p1 p2 dl : ℚ × ℚ × ℚ) (filename output_type : String)
  | geometryObjectsWrite (p1 p2 : ℚ × ℚ × ℚ) (filename : String)
  | pmlCfs (alphascalingprofile alphascalingdirection alphamin alphamax : String)
      (kappascalingprofile kappascalingdirection kappamin kappamax : String)
      (sigmascalingprofile sigmascalingdirection sigmamin sigmamax : String)
  deriving DecidableEq, Repr

/-- Parser state while process_multicmds runs: the local variable tmp (absent
until the first instance of any directive binds it — Python function locals
are unbound, not None, before first assignment) and the scene_objects list
accumulated so far. -/
structure PState where
  tmp : Option (List String)
  objs : List SceneObject
  deriving DecidableEq, Repr

/-- Message text of a CmdInputError as assembled in the source:
quote, directive name, colon, the space-joined tokens, quote, then the
branch-specific text. -/
def cmdErr (name : String) (ts : List String) (tail : String) : PyErr :=
  PyErr.cmdInputError
    ("\x27" ++ name ++ ": " ++ String.intercalate " " ts ++ "\x27" ++ tail)

/-- Appends one freshly constructed descriptor, as scene_objects.append does. -/
def push (st : PState) (o : SceneObject) : PState :=
  { st with objs := st.objs ++ [o] }

/-- Source lines 68–77: a waveform instance needs exactly four parameters. -/
def procWaveform (st : PState) (inst : String) : Except PyErr PState :=
  let tmp := pySplit inst
  let st := { st with tmp := some tmp }
  if tmp.length ≠ 4 then
    Except.error (cmdErr "#waveform" tmp " requires exactly four parameters")
  else do
    let amp ← toFloatE (tok tmp 1)
    let freq ← toFloatE (tok tmp 2)
    Except.ok (push st (SceneObject.waveform (tok tmp 0) amp freq (tok tmp 3)))

/-- Source lines 79–91: a voltage source takes six or eight parameters. -/
def procVoltageSource (st : PState) (inst : String) : Except PyErr PState :=
  let tmp := pySplit inst
  let st := { st with tmp := some tmp }
  if tmp.length = 6 then do
    let x ← toFloatE (tok tmp 1)
    let y ← toFloatE (tok tmp 2)
    let z ← toFloatE (tok tmp 3)
    let res ← toFloatE (tok tmp 4)
    Except.ok (push st (SceneObject.voltageSource (pyLower (tok tmp 0)) (x, y, z)
      res (tok tmp 5) none none))
  else if tmp.length = 8 then do
    let x ← toFloatE (tok tmp 1)
    let y ← toFloatE (tok tmp 2)
    let z ← toFloatE (tok tmp 3)
    let res ← toFloatE (tok tmp 4)
    let t1 ← toFloatE (tok tmp 6)
    let t2 ← toFloatE (tok tmp 7)
    Except.ok (push st (SceneObject.voltageSource (pyLower (tok tmp 0)) (x, y, z)
      res (tok tmp 5) (some t1) (some t2)))
  else
    Except.error (cmdErr "#voltage_source" tmp " requires at least six parameters")

/-- Source lines 93–107: a hertzian dipole takes five or seven parameters. -/
def procHertzianDipole (st : PState) (inst : String) : Except PyErr PState :=
  let tmp := pySplit inst
  let st := { st with tmp := some tmp }
  if tmp.length < 5 then
    Except.error (cmdErr "#hertzian_dipole" tmp " requires at least five parameters")
  else if tmp.length = 5 then do
    let x ← toFloatE (tok tmp 1)
    let y ← toFloatE (tok tmp 2)
    let z ← toFloatE (tok tmp 3)
    Except.ok (push st (SceneObject.hertzianDipole (tok tmp 0) (x, y, z)
      (tok tmp 4) none none))
  else if tmp.length = 7 then do
    let x ← toFloatE (tok tmp 1)
    let y ← toFloatE (tok tmp 2)
    let z ← toFloatE (tok tmp 3)
    let t1 ← toFloatE (tok tmp 5)
    let t2 ← toFloatE (tok tmp 6)
    Except.ok (push st (SceneObject.hertzianDipole (tok tmp 0) (x, y, z)
      (tok tmp 4) (some t1) (some t2)))
  else
    Except.error (cmdErr "#hertzian_dipole" tmp " too many parameters")

/-- Source lines 109–123: a magnetic dipole takes five or seven parameters. -/
def procMagneticDipole (st : PState) (inst : String) : Except PyErr PState :=
  let tmp := pySplit inst
  let st := { st with tmp := some tmp }
  if tmp.length < 5 then
    Except.error (cmdErr "#magnetic_dipole" tmp " requires at least five parameters")
  else if tmp.length = 5 then do
    let x ← toFloatE (tok tmp 1)
    let y ← toFloatE (tok tmp 2)
    let z ← toFloatE (tok tmp 3)
    Except.ok (push st (SceneObject.magneticDipole (tok tmp 0) (x, y, z)
      (tok tmp 4) none none))
  else if tmp.length = 7 then do
    let x ← toFloatE (tok tmp 1)
    let y ← toFloatE (tok tmp 2)
    let z ← toFloatE (tok tmp 3)
    let t1 ← toFloatE (tok tmp 5)
    let t2 ← toFloatE (tok tmp 6)
    Except.ok (push st (SceneObject.magneticDipole (tok tmp 0) (x, y, z)
      (tok tmp 4) (some t1) (some t2)))
  else
    Except.error (cmdErr "#magnetic_dipole" tmp " too many parameters")

/-- Source lines 125–140: a transmission line takes six or eight parameters;
in the eight-parameter form start and end are passed through as raw strings
with no float conversion. -/
def procTransmissionLine (st : PState) (inst : String) : Except PyErr PState :=
  let tmp := pySplit inst
  let st := { st with tmp := some tmp }
  if tmp.length < 6 then
    Except.error (cmdErr "#transmission_line" tmp " requires at least six parameters")
  else if tmp.length = 6 then do
    let x ← toFloatE (tok tmp 1)
    let y ← toFloatE (tok tmp 2)
    let z ← toFloatE (tok tmp 3)
    let res ← toFloatE (tok tmp 4)
    Except.ok (push st (SceneObject.transmissionLine (tok tmp 0) (x, y, z)
      res (tok tmp 5) none none))
  else if tmp.length = 8 then do
    let x ← toFloatE (tok tmp 1)
    let y ← toFloatE (tok tmp 2)
    let z ← toFloatE (tok tmp 3)
    let res ← toFloatE (tok tmp 4)
    Except.ok (push st (SceneObject.transmissionLine (tok tmp 0) (x, y, z)
      res (tok tmp 5) (some (tok tmp 6)) (some (tok tmp 7))))
  else
    Except.error (cmdErr "#transmission_line" tmp " too many parameters")

/-- Source lines 142–153: a receiver takes exactly three parameters, or at
least five (position, id, and the trailing tokens as named outputs). -/
def procRx (st : PState) (inst : String) : Except PyErr PState :=
  let tmp := pySplit inst
  let st := { st with tmp := some tmp }
  if tmp.length ≠ 3 ∧ tmp.length < 5 then
    Except.error (cmdErr "#rx" tmp " has an incorrect number of parameters")
  else if tmp.length = 3 then do
    let x ← toFloatE (tok tmp 0)
    let y ← toFloatE (tok tmp 1)
    let z ← toFloatE (tok tmp 2)
    Except.ok (push st (SceneObject.rx (x, y, z) none []))
  else do
    let x ← toFloatE (tok tmp 0)
    let y ← toFloatE (tok tmp 1)
    let z ← toFloatE (tok tmp 2)
    Except.ok (push st (SceneObject.rx (x, y, z) (some (tok tmp 3)) (pySliceFrom tmp 4)))

/-- Source lines 155–168: a receiver array needs exactly nine parameters; the
constructor call RxArray on line 167 refers to a name that is never imported
by the module, so a valid instance raises NameError after the nine float
conversions succeed. -/
def procRxArray (st : PState) (inst : String) : Except PyErr PState :=
  let tmp := pySplit inst
  let _st := { st with tmp := some tmp }
  if tmp.length ≠ 9 then
    Except.error (cmdErr "#rx_array" tmp " requires exactly nine parameters")
  else do
    let _x1 ← toFloatE (tok tmp 0)
    let _y1 ← toFloatE (tok tmp 1)
    let _z1 ← toFloatE (tok tmp 2)
    let _x2 ← toFloatE (tok tmp 3)
    let _y2 ← toFloatE (tok tmp 4)
    let _z2 ← toFloatE (tok tmp 5)
    let _dx ← toFloatE (tok tmp 6)
    let _dy ← toFloatE (tok tmp 7)
    let _dz ← toFloatE (tok tmp 8)
    Except.error (PyErr.nameError "RxArray")

/-- Source lines 170–191: a snapshot needs exactly eleven parameters; the
tenth token is parsed with int() first and only on ValueError with float(). -/
def procSnapshot (st : PState) (inst : String) : Except PyErr PState :=
  let tmp := pySplit inst
  let st := { st with tmp := some tmp }
  if tmp.length ≠ 11 then
    Except.error (cmdErr "#snapshot" tmp " requires exactly eleven parameters")
  else do
    let x1 ← toFloatE (tok tmp 0)
    let y1 ← toFloatE (tok tmp 1)
    let z1 ← toFloatE (tok tmp 2)
    let x2 ← toFloatE (tok tmp 3)
    let y2 ← toFloatE (tok tmp 4)
    let z2 ← toFloatE (tok tmp 5)
    let dx ← toFloatE (tok tmp 6)
    let dy ← toFloatE (tok tmp 7)
    let dz ← toFloatE (tok tmp 8)
    let filename := tok tmp 10
    match pyInt (tok tmp 9) with
    | some n =>
        Except.ok (push st (SceneObject.snapshot (x1, y1, z1) (x2, y2, z2)
          (dx, dy, dz) (SnapTrigger.iterations n) filename))
    | none => do
        let t ← toFloatE (tok tmp 9)
        Except.ok (push st (SceneObject.snapshot (x1, y1, z1) (x2, y2, z2)
          (dx, dy, dz) (SnapTrigger.time t) filename))

/-- Source lines 193–202: a material needs exactly five parameters. -/
def procMaterial (st : PState) (inst : String) : Except PyErr PState :=
  let tmp := pySplit inst
  let st := { st with tmp := some tmp }
  if tmp.length ≠ 5 then
    Except.error (cmdErr "#material" tmp " requires exactly five parameters")
  else do
    let er ← toFloatE (tok tmp 0)
    let se ← toFloatE (tok tmp 1)
    let mr ← toFloatE (tok tmp 2)
    let sm ← toFloatE (tok tmp 3)
    Except.ok (push st (SceneObject.material er se mr sm (tok tmp 4)))

/-- Dispersion loop of the Debye and Drude branches (source lines 217–219 and
259–261): for each pole index p it converts tmp[p] and tmp[p+1] to floats,
collecting the two per-pole parameter lists, and raises IndexError on the
first out-of-range access or ValueError on a failed conversion. -/
def floatPairLoop (tmp : List String) : List Nat → Except PyErr (List ℚ × List ℚ)
  | [] => Except.ok ([], [])
  | p :: ps => do
    let a ← idxFloat tmp p
    let b ← idxFloat tmp (p + 1)
    let rest ← floatPairLoop tmp ps
    Except.ok (a :: rest.1, b :: rest.2)

/-- Dispersion loop of the Lorentz branch (source lines 238–241), reading
three floats per pole index. -/
def floatTripleLoop (tmp : List String) :
    List Nat → Except PyErr (List ℚ × List ℚ × List ℚ)
  | [] => Except.ok ([], [], [])
  | p :: ps => do
    let a ← idxFloat tmp p
    let b ← idxFloat tmp (p + 1)
    let c ← idxFloat tmp (p + 2)
    let rest ← floatTripleLoop tmp ps
    Except.ok (a :: rest.1, b :: rest.2.1, c :: rest.2.2)

/-- Source lines 204–222: Debye dispersion, at least four parameters; the
material-id list is the slice from index 2*poles+1 and the loop reads pairs
from indices 1..2*poles. -/
def procAddDispersionDebye (st : PState) (inst : String) : Except PyErr PState :=
  let tmp := pySplit inst
  let st := { st with tmp := some tmp }
  if tmp.length < 4 then
    Except.error (cmdErr "#add_dispersion_debye" tmp " requires at least four parameters")
  else do
    let poles ← toIntE (tok tmp 0)
    let material_ids := pySliceFrom tmp (2 * poles + 1)
    let pairs ← floatPairLoop tmp (pyRange1 (2 * poles) 2)
    Except.ok (push st (SceneObject.addDebyeDispersion poles pairs.1 pairs.2 material_ids))

/-- Source lines 224–244: Lorentz dispersion, at least five parameters; the
material-id list is the slice from index 3*poles+1 and the loop reads triples
from indices 1..3*poles. -/
def procAddDispersionLorentz (st : PState) (inst : String) : Except PyErr PState :=
  let tmp := pySplit inst
  let st := { st with tmp := some tmp }
  if tmp.length < 5 then
    Except.error (cmdErr "#add_dispersion_lorentz" tmp " requires at least five parameters")
  else do
    let poles ← toIntE (tok tmp 0)
    let material_ids := pySliceFrom tmp (3 * poles + 1)
    let triples ← floatTripleLoop tmp (pyRange1 (3 * poles) 3)
    Except.ok (push st (SceneObject.addLorentzDispersion poles material_ids
      triples.1 triples.2.1 triples.2.2))

/-- Source lines 246–264: Drude dispersion, at least five parameters; the
material-id list is the slice from index 3*poles+1 even though the loop reads
pairs only from indices 1..2*poles, so tokens 2*poles+1..3*poles are dropped. -/
def procAddDispersionDrude (st : PState) (inst : String) : Except PyErr PState :=
  let tmp := pySplit inst
  let st := { st with tmp := some tmp }
  if tmp.length < 5 then
    Except.error (cmdErr "#add_dispersion_drude" tmp " requires at least five parameters")
  else do
    let poles ← toIntE (tok tmp 0)
    let material_ids := pySliceFrom tmp (3 * poles + 1)
    let pairs ← floatPairLoop tmp (pyRange1 (2 * poles) 2)
    Except.ok (push st (SceneObject.addDrudeDispersion poles material_ids pairs.1 pairs.2))

/-- Source lines 266–280: a Peplinski soil needs exactly seven parameters. -/
def procSoilPeplinski (st : PState) (inst : String) : Except PyErr PState :=
  let tmp := pySplit inst
  let st := { st with tmp := some tmp }
  if tmp.length ≠ 7 then
    Except.error (cmdErr "#soil_peplinski" tmp " requires at exactly seven parameters")
  else do
    let sf ← toFloatE (tok tmp 0)
    let cf ← toFloatE (tok tmp 1)
    let bd ← toFloatE (tok tmp 2)
    let sd ← toFloatE (tok tmp 3)
    let wl ← toFloatE (tok tmp 4)
    let wu ← toFloatE (tok tmp 5)
    Except.ok (push st (SceneObject.soilPeplinski sf cf bd sd wl wu (tok tmp 6)))

/-- Source lines 282–296: a geometry view needs exactly eleven parameters. -/
def procGeometryView (st : PState) (inst : String) : Except PyErr PState :=
  let tmp := pySplit inst
  let st := { st with tmp := some tmp }
  if tmp.length ≠ 11 then
    Except.error (cmdErr "#geometry_view" tmp " requires exactly eleven parameters")
  else do
    let x1 ← toFloatE (tok tmp 0)
    let y1 ← toFloatE (tok tmp 1)
    let z1 ← toFloatE (tok tmp 2)
    let x2 ← toFloatE (tok tmp 3)
    let y2 ← toFloatE (tok tmp 4)
    let z2 ← toFloatE (tok tmp 5)
    let dx ← toFloatE (tok tmp 6)
    let dy ← toFloatE (tok tmp 7)
    let dz ← toFloatE (tok tmp 8)
    Except.ok (push st (SceneObject.geometryView (x1, y1, z1) (x2, y2, z2)
      (dx, dy, dz) (tok tmp 9) (tok tmp 10)))

/-- Source lines 298–309: in the geometry_objects_write branch the constructor
and append statements (lines 306–309) are indented under the arity check's
raise statement and are therefore unreachable; a seven-token instance
performs no action at all, and any other arity raises. -/
def procGeometryObjectsWrite (st : PState) (inst : String) : Except PyErr PState :=
  let tmp := pySplit inst
  let st := { st with tmp := some tmp }
  if tmp.length ≠ 7 then
    Except.error (cmdErr "#geometry_objects_write" tmp " requires exactly seven parameters")
  else
    Except.ok st

/-- Source lines 317–335: one pml_cfs instance needs exactly twelve
parameters, all passed through as raw strings. -/
def procPmlCfsInstance (st : PState) (inst : String) : Except PyErr PState :=
  let tmp := pySplit inst
  let st := { st with tmp := some tmp }
  if tmp.length ≠ 12 then
    Except.error (cmdErr "#pml_cfs" tmp " requires exactly twelve parameters")
  else
    Except.ok (push st (SceneObject.pmlCfs (tok tmp 0) (tok tmp 1) (tok tmp 2)
      (tok tmp 3) (tok tmp 4) (tok tmp 5) (tok tmp 6) (tok tmp 7) (tok tmp 8)
      (tok tmp 9) (tok tmp 10) (tok tmp 11)))

/-- Runs a per-instance processor over the instances of one directive in
declaration order, stopping at the first exception. -/
def foldInsts (f : PState → String → Except PyErr PState) :
    PState → List String → Except PyErr PState
  | st, [] => Except.ok st
  | st, i :: rest => do
    let st2 ← f st i
    foldInsts f st2 rest

/-- Raw directive table: Python dictionary from directive name to either None
(directive unused) or the ordered list of raw instance strings. -/
def Multicmds : Type := List (String × Option (List String))

/-- Processes one directive key of the table, as each block of
process_multicmds does: the lookup multicmds[cmdname] raises KeyError on an
absent key, a key mapped to None is skipped, and otherwise every instance is
processed in order. -/
def runDirective (tbl : Multicmds) (name : String)
    (f : PState → String → Except PyErr PState) (st : PState) :
    Except PyErr PState :=
  match assocLookup tbl name with
  | none => Except.error (PyErr.keyError name)
  | some none => Except.ok st
  | some (some insts) => foldInsts f st insts

/-- Source lines 312–335: the pml_cfs block first rejects more than two
instances; the message of that raise joins the local variable tmp, which is
unbound unless some earlier directive instance was processed, in which case
Python raises NameError instead of CmdInputError. -/
def runPmlCfs (tbl : Multicmds) (st : PState) : Except PyErr PState :=
  match assocLookup tbl "#pml_cfs" with
  | none => Except.error (PyErr.keyError "#pml_cfs")
  | some none => Except.ok st
  | some (some insts) =>
    if insts.length > 2 then
      match st.tmp with
      | none => Except.error (PyErr.nameError "tmp")
      | some ts =>
          Except.error (cmdErr "#pml_cfs" ts
            " can only be used up to two times, for up to a 2nd order PML")
    else foldInsts procPmlCfsInstance st insts

/-- The function process_multicmds of gprMax/input_cmds_multiuse.py: walks the
sixteen directive groups in their fixed source order and returns the
accumulated scene-object list, or the first Python exception raised. -/
def process_multicmds (tbl : Multicmds) : Except PyErr (List SceneObject) := do
  let st : PState := ⟨none, []⟩
  let st ← runDirective tbl "#waveform" procWaveform st
  let st ← runDirective tbl "#voltage_source" procVoltageSource st
  let st ← runDirective tbl "#hertzian_dipole" procHertzianDipole st
  let st ← runDirective tbl "#magnetic_dipole" procMagneticDipole st
  let st ← runDirective tbl "#transmission_line" procTransmissionLine st
  let st ← runDirective tbl "#rx" procRx st
  let st ← runDirective tbl "#rx_array" procRxArray st
  let st ← runDirective tbl "#snapshot" procSnapshot st
  let st ← runDirective tbl "#material" procMaterial st
  let st ← runDirective tbl "#add_dispersion_debye" procAddDispersionDebye st
  let st ← runDirective tbl "#add_dispersion_lorentz" procAddDispersionLorentz st
  let st ← runDirective tbl "#add_dispersion_drude" procAddDispersionDrude st
  let st ← runDirective tbl "#soil_peplinski" procSoilPeplinski st
  let st ← runDirective tbl "#geometry_view" procGeometryView st
  let st ← runDirective tbl "#geometry_objects_write" procGeometryObjectsWrite st
  let st ← runPmlCfs tbl st
  Except.ok st.objs

/-- The sixteen directive names recognized by process_multicmds, in processing
order. -/
def directiveNames : List String :=
  ["#waveform", "#voltage_source", "#hertzian_dipole", "#magnetic_dipole",
   "#transmission_line", "#rx", "#rx_array", "#snapshot", "#material",
   "#add_dispersion_debye", "#add_dispersion_lorentz", "#add_dispersion_drude",
   "#soil_peplinski", "#geometry_view", "#geometry_objects_write", "#pml_cfs"]

/-- Table holding every recognized key, all mapped to Python None except the
chosen key, which is mapped to the chosen value. -/
def tableWith (k : String) (v : Option (List String)) : Multicmds :=
  directiveNames.map (fun d => (d, if d = k then v else none))

/-- Table holding every recognized key mapped to Python None except the chosen
key, which is entirely absent. -/
def tableAllNoneExcept (k : String) : Multicmds :=
  (directiveNames.filter (fun d => d ≠ k)).map (fun d => (d, (none : Option (List String))))

/-- Run arguments consumed by SimulationConfig.set_model_start_end: the
requested model count args.n and the optional task and restart indices
(None when not supplied on the command line). -/
structure Args where
  n : Int
  task : Option Int
  restart : Option Int
  deriving DecidableEq, Repr

/-- SimulationConfig.set_model_start_end (config.py lines 193–207): the
non-MPI model range.  The conditions `if self.args.task:` and
`elif self.args.restart:` use Python truthiness, so None and 0 both select
the later branches. -/
def set_model_start_end (args : Args) : Int × Int :=
  if pyTruthy args.task then
    ((args.task.getD 0) - 1, args.task.getD 0)
  else if pyTruthy args.restart then
    ((args.restart.getD 0) - 1, ((args.restart.getD 0) - 1) + args.n - 1)
  else
    (0, 0 + args.n)

/-- SimulationConfig.set_single_model (config.py lines 187–191). -/
def set_single_model (modelstart modelend : Int) : Bool :=
  modelstart == 0 && modelend == 1

/-- The fields of SimulationConfig that the claims are about, resolved as
SimulationConfig.__init__ resolves them. -/
structure SimulationConfig where
  model_start : Int
  model_end : Int
  single_model : Bool
  deriving DecidableEq, Repr

/-- Non-MPI resolution of the model range and single-model flag, in the order
SimulationConfig.__init__ performs it. -/
def mkSimulationConfig (args : Args) : SimulationConfig :=
  { model_start := (set_model_start_end args).1,
    model_end := (set_model_start_end args).2,
    single_model :=
      set_single_model (set_model_start_end args).1 (set_model_start_end args).2 }

/-- Integer attributes assigned on the SimulationConfigMPI object by the time
config.py line 239 runs: line 238 assigned model_start, and no statement in
the class or its parent ever assigns an attribute named modelstart. -/
def mpiAttrs (modelstart : Int) : List (String × Int) :=
  [("model_start", modelstart)]

/-- SimulationConfigMPI.set_model_start_end (config.py lines 236–239):
model_start is the restart argument when truthy and otherwise 1, and line 239
then reads self.modelstart, which Python resolves with an attribute lookup
that raises AttributeError because that name was never assigned. -/
def set_model_start_end_mpi (args : Args) : Except PyErr (Int × Int) :=
  let modelstart : Int :=
    if pyTruthy args.restart then args.restart.getD 0 else 1
  match assocLookup (mpiAttrs modelstart) "modelstart" with
  | some v => Except.ok (modelstart, v + args.n)
  | none => Except.error (PyErr.attributeError "modelstart")

/-- Numpy real dtypes appearing in the precision registry. -/
inductive NpReal where
  | float32
  | float64
  deriving DecidableEq, Repr

/-- Numpy complex dtypes appearing in the precision registry. -/
inductive NpComplex where
  | complex64
  | complex128
  deriving DecidableEq, Repr

/-- Storage width in bits of a numpy real dtype. -/
def realBits : NpReal → Nat
  | NpReal.float32 => 32
  | NpReal.float64 => 64

/-- Storage width in bits of a numpy complex dtype. -/
def complexBits : NpComplex → Nat
  | NpComplex.complex64 => 64
  | NpComplex.complex128 => 128

/-- The dtypes dictionary of config.py restricted to its numpy and C entries;
the cython entries mirror the same widths. -/
structure Dtypes where
  float_or_double : NpReal
  cplx : NpComplex
  C_float_or_double : String
  C_complex : String
  deriving DecidableEq, Repr

/-- The dtypes value bound when precision is the string single
(config.py lines 87–90). -/
def singleDtypes : Dtypes :=
  ⟨NpReal.float32, NpComplex.complex64, "float", "pycuda::complex<float>"⟩

/-- The dtypes value bound when precision is the string double
(config.py lines 91–94). -/
def doubleDtypes : Dtypes :=
  ⟨NpReal.float64, NpComplex.complex128, "double", "pycuda::complex<double>"⟩

/-- Module-level precision label (config.py line 85). -/
def precision : String := "double"

/-- Outcome of the module-level precision dispatch: either the name dtypes is
bound to a registry, or it is left unbound (no binding, no exception, and a
later use of the name fails).  The configError alternative states what the
specification asserts for an unsupported label; the source contains no
ConfigurationError raise, so the dispatch never produces it. -/
inductive PrecisionInit where
  | registry (d : Dtypes)
  | unbound
  | configError
  deriving DecidableEq, Repr

/-- The if/elif dispatch of config.py lines 87–94: single and double bind
dtypes; any other label matches no branch, so dtypes is simply never bound. -/
def initPrecision (label : String) : PrecisionInit :=
  if label = "single" then PrecisionInit.registry singleDtypes
  else if label = "double" then PrecisionInit.registry doubleDtypes
  else PrecisionInit.unbound

/-- Boolean test for whether a parse outcome is the structured directive
error (CmdInputError, the specification's DirectiveError) as opposed to any
other exception or a success. -/
def isDirectiveErr : Except PyErr (List SceneObject) → Bool
  | Except.error (PyErr.cmdInputError _) => true
  | _ => false

/-- C2: in the non-MPI resolver, a supplied task index t (task indices are
1-based, hence nonzero; Python truthiness treats a supplied 0 as absent)
gives model_start = t - 1 and model_end = t regardless of the restart
argument; otherwise a supplied nonzero restart index r gives
model_start = r - 1 and model_end = model_start + n - 1; otherwise
model_start = 0 and model_end = n. -/
theorem claim_C2_model_range (n t r : Int) (rr : Option Int)
    (ht : t ≠ 0) (hr : r ≠ 0) :
    set_model_start_end ⟨n, some t, rr⟩ = (t - 1, t) ∧
    set_model_start_end ⟨n, none, some r⟩ = (r - 1, r - 1 + n - 1) ∧
    set_model_start_end ⟨n, none, none⟩ = (0, n) := by
  refine ⟨?_, ?_, ?_⟩ <;> simp [set_model_start_end, pyTruthy, ht, hr]

/-- Witness for C2 at the concrete inputs of the claim: task = 2 with n = 3,
restart = 2 with n = 3 (the documented start = 1, end = 3 case), and the
default mode with n = 3. -/
theorem claim_C2_model_range_witness :
    set_model_start_end ⟨3, some 2, none⟩ = (1, 2) ∧
    set_model_start_end ⟨3, none, some 2⟩ = (1, 3) ∧
    set_model_start_end ⟨3, none, none⟩ = (0, 3) := by
  have h := claim_C2_model_range 3 2 2 none (by decide) (by decide)
  refine ⟨?_, ?_, ?_⟩
  · have := h.1
    norm_num at this ⊢
    exact this
  · have := h.2.1
    norm_num at this ⊢
    exact this
  · exact h.2.2

/-- C5 fails as stated: with restart = 2 and n = 1 the resolver succeeds but
yields model_start = model_end = 1, violating model_end > model_start. -/
theorem claim_C5_counterexample :
    ¬ ((mkSimulationConfig ⟨1, none, some 2⟩).model_start <
        (mkSimulationConfig ⟨1, none, some 2⟩).model_end) := by decide

/-- C5 amended: single_model holds exactly when model_start = 0 and
model_end = 1; and model_end > model_start holds in task mode always, in
restart mode when n is at least 2, and in the default mode when n is at
least 1 (the counterexample restart = 2, n = 1 forces the restart-mode
bound). -/
theorem claim_C5_invariant (args : Args) :
    ((mkSimulationConfig args).single_model = true ↔
      ((mkSimulationConfig args).model_start = 0 ∧
        (mkSimulationConfig args).model_end = 1)) ∧
    (pyTruthy args.task = true →
      (mkSimulationConfig args).model_start < (mkSimulationConfig args).model_end) ∧
    (pyTruthy args.task = false → pyTruthy args.restart = true → 2 ≤ args.n →
      (mkSimulationConfig args).model_start < (mkSimulationConfig args).model_end) ∧
    (pyTruthy args.task = false → pyTruthy args.restart = false → 1 ≤ args.n →
      (mkSimulationConfig args).model_start < (mkSimulationConfig args).model_end) := by
  refine ⟨?_, ?_, ?_, ?_⟩
  · simp [mkSimulationConfig, set_single_model]
  · intro h1
    simp [mkSimulationConfig, set_model_start_end, h1]
  · intro h1 h2 h3
    simp [mkSimulationConfig, set_model_start_end, h1, h2]
    omega
  · intro h1 h2 h3
    simp [mkSimulationConfig, set_model_start_end, h1, h2]
    omega

/-- Witness for C5 at restart = 2, n = 3: the resolver gives start 1 < end 3. -/
theorem claim_C5_invariant_witness :
    (mkSimulationConfig ⟨3, none, some 2⟩).model_start <
      (mkSimulationConfig ⟨3, none, some 2⟩).model_end :=
  (claim_C5_invariant ⟨3, none, some 2⟩).2.2.1 (by decide) (by decide) (by decide)

/-- C6 fails on the code: for every run-argument set the MPI resolver raises
AttributeError while computing model_end, because line 239 reads the
attribute modelstart that no statement ever assigned (line 238 assigned
model_start); in particular for restart = None and n = 3 no range
(start = 1, end = 4) is ever produced. -/
theorem claim_C6_mpi_resolver (args : Args) :
    set_model_start_end_mpi args = Except.error (PyErr.attributeError "modelstart") := by
  simp [set_model_start_end_mpi, mpiAttrs, assocLookup]

/-- C10 fails as stated: the label half is unsupported, yet the module-level
dispatch raises no ConfigurationError — it matches no branch and leaves the
dtypes name unbound. -/
theorem claim_C10_counterexample :
    initPrecision "half" = PrecisionInit.unbound ∧
    initPrecision "half" ≠ PrecisionInit.configError := by decide

/-- C10 amended: the supported labels yield the documented widths — single is
32-bit real with 64-bit complex, double (the default label) is 64-bit real
with 128-bit complex — while any other label leaves the registry unbound
(the failure surfaces only later as an unbound-name error), not as a
ConfigurationError at process start. -/
theorem claim_C10_precision (label : String) :
    initPrecision precision = PrecisionInit.registry doubleDtypes ∧
    initPrecision "single" = PrecisionInit.registry singleDtypes ∧
    realBits singleDtypes.float_or_double = 32 ∧
    complexBits singleDtypes.cplx = 64 ∧
    realBits doubleDtypes.float_or_double = 64 ∧
    complexBits doubleDtypes.cplx = 128 ∧
    (label ≠ "single" → label ≠ "double" →
      initPrecision label = PrecisionInit.unbound) := by
  refine ⟨by decide, by decide, by decide, by decide, by decide, by decide, ?_⟩
  intro h1 h2
  simp [initPrecision, h1, h2]

/-- Witness for C10 at the unsupported label half. -/
theorem claim_C10_precision_witness :
    initPrecision "half" = PrecisionInit.unbound :=
  (claim_C10_precision "half").2.2.2.2.2.2 (by decide) (by decide)

/-- C1 fails on the code at both of its named cases.  A seven-token
geometry_objects_write instance appends no descriptor at all — the
constructor and append statements are indented under the arity check's raise
and never execute — and a nine-token rx_array instance raises NameError
because the name RxArray is never imported, so no descriptor with the
positionally converted fields is produced for either. -/
theorem claim_C1_descriptor_eval :
    process_multicmds
        (tableWith "#geometry_objects_write" (some ["0 0 0 1 1 1 out"])) =
      Except.ok [] ∧
    process_multicmds (tableWith "#rx_array" (some ["1 2 3 4 5 6 7 8 9"])) =
      Except.error (PyErr.nameError "RxArray") := by
  constructor <;> with_unfolding_all rfl

/-- C3 fails on the code: for a Drude instance with P = 1 and tokens
1 2.0 3.0 m1 m2, the claim says the material ids are the tokens after
position 2P, namely m1 and m2; the code slices from index 3P + 1 instead and
returns only m2, silently dropping m1 (the pair loop does read tokens 1..2P,
so token m1 at position 3 is neither a pole parameter nor a material id). -/
theorem claim_C3_drude_eval :
    process_multicmds (tableWith "#add_dispersion_drude" (some ["1 2.0 3.0 m1 m2"])) =
      Except.ok [SceneObject.addDrudeDispersion 1 ["m2"] [2] [3]] ∧
    pySliceFrom (pySplit "1 2.0 3.0 m1 m2") (2 * 1 + 1) = ["m1", "m2"] := by
  constructor <;> with_unfolding_all rfl

/-- C7: a third pml_cfs instance makes process_multicmds fail before any
per-instance token validation (here the three instances are each a single
invalid token), and two twelve-token instances succeed.  The failure,
however, is a NameError: the over-count raise interpolates the local
variable tmp into its message, and tmp is unbound when no earlier directive
instance was processed. -/
theorem claim_C7_pml_eval :
    process_multicmds (tableWith "#pml_cfs" (some ["bad", "bad", "bad"])) =
      Except.error (PyErr.nameError "tmp") ∧
    process_multicmds (tableWith "#pml_cfs"
        (some ["f x 0 1 g y 0 2 h z 0 3", "p q 1 2 r s 3 4 t u 5 6"])) =
      Except.ok
        [SceneObject.pmlCfs "f" "x" "0" "1" "g" "y" "0" "2" "h" "z" "0" "3",
         SceneObject.pmlCfs "p" "q" "1" "2" "r" "s" "3" "4" "t" "u" "5" "6"] := by
  constructor <;> with_unfolding_all rfl

/-- C9 fails as stated: when the recognized key rx is entirely absent from
the table (every other recognized key present and mapped to None),
process_multicmds raises KeyError on the lookup instead of treating the
directive as unused. -/
theorem claim_C9_counterexample :
    process_multicmds (tableAllNoneExcept "#rx") =
      Except.error (PyErr.keyError "#rx") := by
  with_unfolding_all rfl

/-- C9 amended: a directive is treated as not used — no descriptor, no
failure — when its key is present and mapped to Python None or to an empty
sequence; a key that is entirely absent instead raises KeyError when its
lookup is reached. -/
theorem claim_C9_unused_key (k : String) (v : Option (List String))
    (hk : k ∈ directiveNames) (hv : v = none ∨ v = some []) :
    process_multicmds (tableWith k v) = Except.ok [] := by
  simp only [directiveNames, List.mem_cons, List.not_mem_nil, or_false] at hk
  rcases hv with rfl | rfl <;>
    rcases hk with rfl|rfl|rfl|rfl|rfl|rfl|rfl|rfl|rfl|rfl|rfl|rfl|rfl|rfl|rfl|rfl <;>
    with_unfolding_all rfl

/-- Witness for C9: the waveform key mapped to None yields an empty scene
with no failure. -/
theorem claim_C9_unused_key_witness :
    process_multicmds (tableWith "#waveform" none) = Except.ok [] :=
  claim_C9_unused_key "#waveform" none (by decide) (Or.inl rfl)

/-- C4: for an eleven-token snapshot instance whose first nine tokens convert
to floats, the tenth token is parsed with int() first — on success the
descriptor carries an iteration-count trigger with the parsed integer — and
only when the integer parse fails is it parsed with float(), yielding an
elapsed-time trigger with the parsed value. -/
theorem claim_C4_snapshot_trigger (st : PState) (inst : String)
    (a0 a1 a2 a3 a4 a5 a6 a7 a8 a9 a10 : String)
    (q0 q1 q2 q3 q4 q5 q6 q7 q8 : ℚ)
    (hs : pySplit inst = [a0, a1, a2, a3, a4, a5, a6, a7, a8, a9, a10])
    (h0 : pyFloat a0 = some q0) (h1 : pyFloat a1 = some q1)
    (h2 : pyFloat a2 = some q2) (h3 : pyFloat a3 = some q3)
    (h4 : pyFloat a4 = some q4) (h5 : pyFloat a5 = some q5)
    (h6 : pyFloat a6 = some q6) (h7 : pyFloat a7 = some q7)
    (h8 : pyFloat a8 = some q8) :
    (∀ k : Int, pyInt a9 = some k →
      procSnapshot st inst = Except.ok
        { tmp := some [a0, a1, a2, a3, a4, a5, a6, a7, a8, a9, a10],
          objs := st.objs ++ [SceneObject.snapshot (q0, q1, q2) (q3, q4, q5)
            (q6, q7, q8) (SnapTrigger.iterations k) a10] }) ∧
    (∀ t : ℚ, pyInt a9 = none → pyFloat a9 = some t →
      procSnapshot st inst = Except.ok
        { tmp := some [a0, a1, a2, a3, a4, a5, a6, a7, a8, a9, a10],
          objs := st.objs ++ [SceneObject.snapshot (q0, q1, q2) (q3, q4, q5)
            (q6, q7, q8) (SnapTrigger.time t) a10] }) := by
  constructor
  · intro k hk
    simp [procSnapshot, hs, tok, toFloatE, push,
      h0, h1, h2, h3, h4, h5, h6, h7, h8, hk]
    rfl
  · intro t hn hf
    simp [procSnapshot, hs, tok, toFloatE, push,
      h0, h1, h2, h3, h4, h5, h6, h7, h8, hn, hf]
    rfl

/-- Witness for C4: the token 100 yields an iteration trigger of 100 and the
token 100.5 yields a time trigger of 100.5 = 201/2. -/
theorem claim_C4_snapshot_trigger_witness :
    procSnapshot ⟨none, []⟩ "0 0 0 1 1 1 0.1 0.1 0.1 100 snap" = Except.ok
      { tmp := some ["0", "0", "0", "1", "1", "1", "0.1", "0.1", "0.1", "100", "snap"],
        objs := [SceneObject.snapshot (0, 0, 0) (1, 1, 1)
          (1/10, 1/10, 1/10) (SnapTrigger.iterations 100) "snap"] } ∧
    procSnapshot ⟨none, []⟩ "0 0 0 1 1 1 0.1 0.1 0.1 100.5 snap" = Except.ok
      { tmp := some ["0", "0", "0", "1", "1", "1", "0.1", "0.1", "0.1", "100.5", "snap"],
        objs := [SceneObject.snapshot (0, 0, 0) (1, 1, 1)
          (1/10, 1/10, 1/10) (SnapTrigger.time (201/2)) "snap"] } := by
  constructor
  · exact (claim_C4_snapshot_trigger ⟨none, []⟩ "0 0 0 1 1 1 0.1 0.1 0.1 100 snap"
      "0" "0" "0" "1" "1" "1" "0.1" "0.1" "0.1" "100" "snap"
      0 0 0 1 1 1 (1/10) (1/10) (1/10)
      (by with_unfolding_all rfl)
      (by with_unfolding_all rfl) (by with_unfolding_all rfl)
      (by with_unfolding_all rfl) (by with_unfolding_all rfl)
      (by with_unfolding_all rfl) (by with_unfolding_all rfl)
      (by with_unfolding_all rfl) (by with_unfolding_all rfl)
      (by with_unfolding_all rfl)).1 100 (by with_unfolding_all rfl)
  · exact (claim_C4_snapshot_trigger ⟨none, []⟩ "0 0 0 1 1 1 0.1 0.1 0.1 100.5 snap"
      "0" "0" "0" "1" "1" "1" "0.1" "0.1" "0.1" "100.5" "snap"
      0 0 0 1 1 1 (1/10) (1/10) (1/10)
      (by with_unfolding_all rfl)
      (by with_unfolding_all rfl) (by with_unfolding_all rfl)
      (by with_unfolding_all rfl) (by with_unfolding_all rfl)
      (by with_unfolding_all rfl) (by with_unfolding_all rfl)
      (by with_unfolding_all rfl) (by with_unfolding_all rfl)
      (by with_unfolding_all rfl)).2 (201/2)
      (by with_unfolding_all rfl) (by with_unfolding_all rfl)

/-- Sequencing after a successful Except step applies the continuation. -/
lemma exceptBind_ok {α β : Type} (a : α) (f : α → Except PyErr β) :
    (Except.ok a >>= f) = f a := rfl

/-- Sequencing after a raised exception propagates the exception. -/
lemma exceptBind_err {α β : Type} (e : PyErr) (f : α → Except PyErr β) :
    ((Except.error e : Except PyErr α) >>= f) = Except.error e := rfl

/-- Indexing strictly before the end of the token list succeeds. -/
lemma pyIndexN_lt (l : List String) (i : Nat) (h : i < l.length) :
    pyIndexN l i = Except.ok (l.getD i "") := by
  simp [pyIndexN, List.getElem?_eq_getElem h, List.getD_eq_getElem?_getD]

/-- Indexing at or past the end of the token list raises IndexError. -/
lemma pyIndexN_ge (l : List String) (i : Nat) (h : l.length ≤ i) :
    pyIndexN l i = Except.error PyErr.indexError := by
  simp [pyIndexN, List.getElem?_eq_none h]

/-- A guarded in-range read whose token converts yields the float. -/
lemma idxFloat_ok (l : List String) (i : Nat) (q : ℚ) (h : i < l.length)
    (hq : pyFloat (l.getD i "") = some q) : idxFloat l i = Except.ok q := by
  simp only [List.getD_eq_getElem?_getD] at hq
  simp [idxFloat, pyIndexN_lt l i h, toFloatE, hq, exceptBind_ok]

/-- A read past the end of the token list raises IndexError. -/
lemma idxFloat_oob (l : List String) (i : Nat) (h : l.length ≤ i) :
    idxFloat l i = Except.error PyErr.indexError := by
  simp [idxFloat, pyIndexN_ge l i h, exceptBind_err]

/-- When some pole index of the list reaches past the end of the token list
and every in-range token at a positive index converts to a float, the
pair-reading dispersion loop stops with IndexError. -/
lemma floatPairLoop_indexError (tmp : List String)
    (hfl : ∀ j, 1 ≤ j → j < tmp.length → (pyFloat (tmp.getD j "")).isSome = true) :
    ∀ ps : List Nat, (∀ p ∈ ps, 1 ≤ p) → (∃ p ∈ ps, tmp.length ≤ p + 1) →
      floatPairLoop tmp ps = Except.error PyErr.indexError := by
  intro ps
  induction ps with
  | nil =>
    rintro _ ⟨p, hp, _⟩
    exact absurd hp (List.not_mem_nil p)
  | cons p ps ih =>
    rintro h1 ⟨q, hq, hql⟩
    by_cases hp : tmp.length ≤ p
    · simp [floatPairLoop, idxFloat_oob tmp p hp, exceptBind_err]
    · push_neg at hp
      obtain ⟨qa, hqa⟩ := Option.isSome_iff_exists.mp
        (hfl p (h1 p (List.mem_cons_self p ps)) hp)
      by_cases hp1 : tmp.length ≤ p + 1
      · simp [floatPairLoop, idxFloat_ok tmp p qa hp hqa,
          idxFloat_oob tmp (p + 1) hp1, exceptBind_ok, exceptBind_err]
      · push_neg at hp1
        obtain ⟨qb, hqb⟩ := Option.isSome_iff_exists.mp (hfl (p + 1) (by omega) hp1)
        have hmem : q ∈ ps := by
          rcases List.mem_cons.mp hq with rfl | h
          · exact absurd hql (by omega)
          · exact h
        simp [floatPairLoop, idxFloat_ok tmp p qa hp hqa,
          idxFloat_ok tmp (p + 1) qb (by omega) hqb, exceptBind_ok, exceptBind_err,
          ih (fun r hr => h1 r (List.mem_cons_of_mem p hr)) ⟨q, hmem, hql⟩]

/-- When some pole index of the list reaches within two of the end of the
token list and every in-range token at a positive index converts to a float,
the triple-reading dispersion loop stops with IndexError. -/
lemma floatTripleLoop_indexError (tmp : List String)
    (hfl : ∀ j, 1 ≤ j → j < tmp.length → (pyFloat (tmp.getD j "")).isSome = true) :
    ∀ ps : List Nat, (∀ p ∈ ps, 1 ≤ p) → (∃ p ∈ ps, tmp.length ≤ p + 2) →
      floatTripleLoop tmp ps = Except.error PyErr.indexError := by
  intro ps
  induction ps with
  | nil =>
    rintro _ ⟨p, hp, _⟩
    exact absurd hp (List.not_mem_nil p)
  | cons p ps ih =>
    rintro h1 ⟨q, hq, hql⟩
    by_cases hp : tmp.length ≤ p
    · simp [floatTripleLoop, idxFloat_oob tmp p hp, exceptBind_err]
    · push_neg at hp
      obtain ⟨qa, hqa⟩ := Option.isSome_iff_exists.mp
        (hfl p (h1 p (List.mem_cons_self p ps)) hp)
      by_cases hp1 : tmp.length ≤ p + 1
      · simp [floatTripleLoop, idxFloat_ok tmp p qa hp hqa,
          idxFloat_oob tmp (p + 1) hp1, exceptBind_ok, exceptBind_err]
      · push_neg at hp1
        obtain ⟨qb, hqb⟩ := Option.isSome_iff_exists.mp (hfl (p + 1) (by omega) hp1)
        by_cases hp2 : tmp.length ≤ p + 2
        · simp [floatTripleLoop, idxFloat_ok tmp p qa hp hqa,
            idxFloat_ok tmp (p + 1) qb (by omega) hqb,
            idxFloat_oob tmp (p + 2) hp2, exceptBind_ok, exceptBind_err]
        · push_neg at hp2
          obtain ⟨qc, hqc⟩ := Option.isSome_iff_exists.mp (hfl (p + 2) (by omega) hp2)
          have hmem : q ∈ ps := by
            rcases List.mem_cons.mp hq with rfl | h
            · exact absurd hql (by omega)
            · exact h
          simp [floatTripleLoop, idxFloat_ok tmp p qa hp hqa,
            idxFloat_ok tmp (p + 1) qb (by omega) hqb,
            idxFloat_ok tmp (p + 2) qc (by omega) hqc, exceptBind_ok, exceptBind_err,
            ih (fun r hr => h1 r (List.mem_cons_of_mem p hr)) ⟨q, hmem, hql⟩]

/-- Every index visited by a dispersion loop is at least 1. -/
lemma pyRange1_pos (stop : Int) (step : Nat) :
    ∀ p ∈ pyRange1 stop step, 1 ≤ p := by
  intro p hp
  simp only [pyRange1, List.mem_map, List.mem_range] at hp
  obtain ⟨i, _, rfl⟩ := hp
  omega

/-- For a pole count of at least 2, the last index read by the pair loop,
2 * P - 1, is visited. -/
lemma pyRange1_pair_last (P : Int) (hP : 2 ≤ P) :
    ((2 * P.toNat - 1) : Nat) ∈ pyRange1 (2 * P) 2 := by
  simp only [pyRange1, List.mem_map, List.mem_range]
  exact ⟨P.toNat - 1, by omega, by omega⟩

/-- For a pole count of at least 2, the first index of the last triple read
by the triple loop, 3 * P - 2, is visited. -/
lemma pyRange1_triple_last (P : Int) (hP : 2 ≤ P) :
    ((3 * P.toNat - 2) : Nat) ∈ pyRange1 (3 * P) 3 := by
  simp only [pyRange1, List.mem_map, List.mem_range]
  exact ⟨P.toNat - 1, by omega, by omega⟩

/-- C8 amended: a variable-arity dispersion instance whose token count meets
the documented minimum but is smaller than the span implied by the parsed
pole count — fewer than 2P+1 tokens for Debye and Drude, fewer than 3P+1 for
Lorentz — fails with IndexError, the out-of-range token access inside the
parameter-reading loop, not with a DirectiveError (the claim's premise
presumes the pole parameters present are numeric; a non-numeric token read
before the missing position would surface as a ValueError instead, likewise
not a DirectiveError). -/
theorem claim_C8_arity_mismatch (st : PState) (inst : String)
    (tmp : List String) (P : Int)
    (hs : pySplit inst = tmp)
    (hp : pyInt (tok tmp 0) = some P)
    (hfl : ∀ j, 1 ≤ j → j < tmp.length → (pyFloat (tmp.getD j "")).isSome = true) :
    (4 ≤ tmp.length → (tmp.length : Int) < 2 * P + 1 →
      procAddDispersionDebye st inst = Except.error PyErr.indexError) ∧
    (5 ≤ tmp.length → (tmp.length : Int) < 3 * P + 1 →
      procAddDispersionLorentz st inst = Except.error PyErr.indexError) ∧
    (5 ≤ tmp.length → (tmp.length : Int) < 2 * P + 1 →
      procAddDispersionDrude st inst = Except.error PyErr.indexError) := by
  refine ⟨?_, ?_, ?_⟩
  · intro h4 hlt
    have hP : 2 ≤ P := by omega
    have hloop := floatPairLoop_indexError tmp hfl (pyRange1 (2 * P) 2)
      (pyRange1_pos (2 * P) 2)
      ⟨2 * P.toNat - 1, pyRange1_pair_last P hP, by omega⟩
    simp [procAddDispersionDebye, hs, toIntE, hp, hloop, exceptBind_ok,
      exceptBind_err, show ¬ (tmp.length < 4) by omega]
  · intro h5 hlt
    have hP : 2 ≤ P := by omega
    have hloop := floatTripleLoop_indexError tmp hfl (pyRange1 (3 * P) 3)
      (pyRange1_pos (3 * P) 3)
      ⟨3 * P.toNat - 2, pyRange1_triple_last P hP, by omega⟩
    simp [procAddDispersionLorentz, hs, toIntE, hp, hloop, exceptBind_ok,
      exceptBind_err, show ¬ (tmp.length < 5) by omega]
  · intro h5 hlt
    have hP : 2 ≤ P := by omega
    have hloop := floatPairLoop_indexError tmp hfl (pyRange1 (2 * P) 2)
      (pyRange1_pos (2 * P) 2)
      ⟨2 * P.toNat - 1, pyRange1_pair_last P hP, by omega⟩
    simp [procAddDispersionDrude, hs, toIntE, hp, hloop, exceptBind_ok,
      exceptBind_err, show ¬ (tmp.length < 5) by omega]

/-- C8 fails as stated: a Debye instance with pole count 2 and four tokens
(minimum arity satisfied, but fewer than 2P+1 = 5 tokens) makes
process_multicmds raise IndexError, which is not the DirectiveError the
claim requires. -/
theorem claim_C8_counterexample :
    process_multicmds (tableWith "#add_dispersion_debye" (some ["2 1.0 2.0 3.0"])) =
      Except.error PyErr.indexError ∧
    isDirectiveErr (process_multicmds
      (tableWith "#add_dispersion_debye" (some ["2 1.0 2.0 3.0"]))) = false := by
  constructor <;> with_unfolding_all rfl

/-- Witness for C8 at the Debye instance 2 1.0 2.0 3.0: four tokens, parsed
pole count 2, numeric pole parameters, IndexError. -/
theorem claim_C8_arity_mismatch_witness :
    procAddDispersionDebye ⟨none, []⟩ "2 1.0 2.0 3.0" =
      Except.error PyErr.indexError := by
  refine (claim_C8_arity_mismatch ⟨none, []⟩ "2 1.0 2.0 3.0"
    ["2", "1.0", "2.0", "3.0"] 2 (by with_unfolding_all rfl)
    (by with_unfolding_all rfl) ?_).1 (by decide) (by decide)
  intro j hj1 hj2
  simp only [List.length_cons, List.length_nil] at hj2
  interval_cases j <;> with_unfolding_all rfl

end GprMax
